import Mathlib

/-!
Shallow embedding of the Honeybee sun-matrix workflow and glass material.

Sources embedded:
  * `src/honeybee/radiance/sky/sunmatrix.py` (class `SunMatrix`)
  * `src/honeybee/radiance/material/glass.py` (class `Glass`)

Modelling choices:
  * Real numbers from the source (latitude, longitude, radiation values,
    solar altitude, sun vectors, transmittances) are modelled as `ℚ`.
  * Python `int(...)` truncation toward zero is `pyInt`.
  * External collaborators (ladybug `DateTime.fromHoy`, `Sunpath`, and
    `gendaylit`) are opaque: they are parameters of the embedding, bundled
    in `Collab`.
  * The filesystem is a partial map from paths to file contents; the
    `.ann`, `.sun` and `.mtx` outputs are kept in structured form (the
    data the format strings of the source are applied to), the `.hrs`
    signature file as literal text.
  * `SunMatrix.execute` returns the ordered trace of its effects
    (signature write, collaborator calls, output writes) together with
    the returned triple of paths; the final filesystem is obtained by
    replaying the write events.
-/

/-- Python `int(...)` on a rational: truncation toward zero
(`Int.tdiv` truncates toward zero, and `q.den` is positive). -/
def pyInt (q : ℚ) : ℤ :=
  Int.tdiv q.num (q.den : ℤ)

/-- Location data used by `SunMatrix` (`wea.location`). -/
structure Location where
  stationId : String
  latitude : ℚ
  longitude : ℚ
  deriving DecidableEq, Repr

/-- The ladybug `Wea` object as consumed by `sunmatrix.py`: a location plus
the two radiation series, indexed by integer hour-of-year. -/
structure Wea where
  location : Location
  directNormalRadiation : ℕ → ℚ
  diffuseHorizontalRadiation : ℕ → ℚ

/-- The fields of a ladybug `DateTime` read by `SunMatrix.execute`. -/
structure DateTimeHB where
  month : ℕ
  day : ℕ
  hour : ℚ
  intHOY : ℕ
  deriving DecidableEq, Repr

/-- The fields of a ladybug `Sun` read by `SunMatrix.execute`. -/
structure Sun where
  altitude : ℚ
  sunVector : ℚ × ℚ × ℚ
  deriving DecidableEq, Repr

/-- The external collaborators of `SunMatrix.execute`, opaque to this
repository: `DateTime.fromHoy`, `Sunpath.fromLocation` (whose result is the
function `calculateSun : month → day → hour → Sun`), and `gendaylit`. -/
structure Collab where
  fromHoy : ℕ → DateTimeHB
  sunpathFrom : Location → ℚ → (ℕ → ℕ → ℚ → Sun)
  gendaylit : ℚ → ℕ → ℕ → ℚ → ℤ → ℤ → ℚ

/-- One `.ann`-file entry: the data the `solarstring` template of
`sunmatrix.py` is instantiated with (`solar{counter}`, the radiance value
repeated three times, and the negated sun vector). -/
structure AnnEntry where
  counter : ℕ
  radiance : ℤ
  dir : ℚ × ℚ × ℚ
  deriving DecidableEq, Repr

/-- The identifier written (twice) in an `.ann` entry: `solar<counter>`. -/
def annId (e : AnnEntry) : String :=
  "solar" ++ toString e.counter

/-- The variable parts of the 7-line `.mtx` header
(`LATLONG=`, `NROWS=`, `NCOLS=`, `NCOMP=`, `FORMAT=`). -/
structure MtxHeader where
  latlong : ℚ × ℚ
  nrows : ℕ
  ncols : ℕ
  ncomp : ℕ
  format : String
  deriving DecidableEq, Repr

/-- One matrix cell `"r g b"`. -/
def Cell : Type := ℤ × ℤ × ℤ

instance : DecidableEq Cell := by unfold Cell; infer_instance

/-- Contents of the files this component writes. -/
inductive FileContent where
  | text (s : String)
  | ann (entries : List AnnEntry)
  | sunl (ids : List String)
  | mtx (header : MtxHeader) (rows : List (List Cell))
  deriving DecidableEq

/-- A filesystem: partial map from paths to contents. -/
def FS : Type := String → Option FileContent

/-- Effects of `SunMatrix.execute`, in program order: the signature-file
write, the collaborator calls, and the three output-file writes. -/
inductive Ev where
  | sigWrite (path : String) (content : String)
  | sunpathFrom (loc : Location) (north : ℚ)
  | fromHoy (hoy : ℕ)
  | calcSun (month day : ℕ) (hour : ℚ)
  | genday (alt : ℚ) (month day : ℕ) (hour : ℚ) (dnr dhr : ℤ)
  | annWrite (path : String) (entries : List AnnEntry)
  | sunWrite (path : String) (ids : List String)
  | mtxWrite (path : String) (header : MtxHeader) (rows : List (List Cell))
  deriving DecidableEq

/-- Replay one event against the filesystem (only writes change it). -/
def applyEv (fs : FS) : Ev → FS
  | .sigWrite p c => fun q => if q = p then some (.text c) else fs q
  | .annWrite p es => fun q => if q = p then some (.ann es) else fs q
  | .sunWrite p ids => fun q => if q = p then some (.sunl ids) else fs q
  | .mtxWrite p h rs => fun q => if q = p then some (.mtx h rs) else fs q
  | _ => fs

/-- Replay a trace of events against the filesystem. -/
def applyEvs (fs : FS) (evs : List Ev) : FS :=
  evs.foldl applyEv fs

/-- `os.path.join(workingDir, f)`. -/
def joinPath (d f : String) : String :=
  d ++ "/" ++ f

/-- Rendering of a rational in a format-string slot (Python `str` of the
number). Any injective rendering is a faithful model of its role here: the
rendered values only ever appear inside the computed file names. -/
def ratStr (q : ℚ) : String :=
  toString q.num ++ "/" ++ toString q.den

/-- The `SunMatrix` object: `wea`, `north`, `hoys`. -/
structure SunMatrix where
  wea : Wea
  north : ℚ
  hoys : List ℕ

/-- `SunMatrix.__init__(wea, north=0, hoys=None)`:
`self.north = north or 0` (the north setter) and
`self.hoys = hoys or range(8760)` — an absent or empty (falsy) hours
collection becomes the full year. -/
def mkSunMatrix (wea : Wea) (north : Option ℚ) (hoys : Option (List ℕ)) :
    SunMatrix :=
  { wea := wea
    north :=
      match north with
      | none => 0
      | some n => if n = 0 then 0 else n
    hoys :=
      match hoys with
      | none => List.range 8760
      | some [] => List.range 8760
      | some l => l }

namespace SunMatrix

/-- `SunMatrix.name`: `"sunmtx_r{}_{}_{}_{}".format(stationId, latitude,
longitude, north)`. Python's `str` of a number is modelled by the injective
rendering `ratStr`. -/
def name (s : SunMatrix) : String :=
  "sunmtx_r" ++ s.wea.location.stationId ++ "_" ++
    ratStr s.wea.location.latitude ++ "_" ++
    ratStr s.wea.location.longitude ++ "_" ++ ratStr s.north

/-- `SunMatrix.analemmafile`. -/
def analemmafile (s : SunMatrix) : String := s.name ++ ".ann"

/-- `SunMatrix.sunlistfile`. -/
def sunlistfile (s : SunMatrix) : String := s.name ++ ".sun"

/-- `SunMatrix.sunmtxfile`. -/
def sunmtxfile (s : SunMatrix) : String := s.name ++ ".mtx"

/-- `','.join(str(h) for h in self.hoys)`. -/
def renderHours (hoys : List ℕ) : String :=
  String.intercalate "," (hoys.map toString)

/-- `SunMatrix.hoursMatch(hoursFile)`: false when the file does not exist,
otherwise exact string equality of the file's whole content with the
comma-joined hours plus a trailing newline. -/
def hoursMatch (fs : FS) (s : SunMatrix) (hoursFile : String) : Bool :=
  match fs hoursFile with
  | some (.text line) => line = renderHours s.hoys ++ "\n"
  | _ => false

end SunMatrix

/-- `enumerate` over a list, starting from a given counter. -/
def enumFrom {α : Type _} : ℕ → List α → List (ℕ × α)
  | _, [] => []
  | t, a :: as => (t, a) :: enumFrom (t + 1) as

/-- Accumulator of the per-hour loop of `SunMatrix.execute`:
`count`, `solarradiances`, `sunValues`, `sunUpHours`, plus the trace of
collaborator calls made so far. -/
structure LoopState where
  count : ℕ
  solarradiances : List ℤ
  sunValues : List AnnEntry
  sunUpHours : List ℕ
  events : List Ev
  deriving DecidableEq

/-- The empty loop accumulator. -/
def LoopState.init : LoopState :=
  ⟨0, [], [], [], []⟩

/-- One iteration of the loop
`for timecount, timeStamp in enumerate(monthDateTime)` in
`SunMatrix.execute`. The pair is `(timecount, hoy)`; `sp` is the result of
`Sunpath.fromLocation`. Note that `count` is incremented before the
altitude test, exactly as in the source. -/
def loopStep (c : Collab) (wea : Wea) (sp : ℕ → ℕ → ℚ → Sun)
    (st : LoopState) (p : ℕ × ℕ) : LoopState :=
  let timecount := p.1
  let ts := c.fromHoy p.2
  let month := ts.month
  let day := ts.day
  let hour := ts.hour + 1/2
  let dnr := pyInt (wea.directNormalRadiation ts.intHOY)
  let dhr := pyInt (wea.diffuseHorizontalRadiation ts.intHOY)
  let st := { st with events := st.events ++ [.fromHoy p.2] }
  if dnr = 0 then st
  else
    let count := st.count + 1
    let sun := sp month day hour
    let st := { st with count := count,
                        events := st.events ++ [.calcSun month day hour] }
    if sun.altitude < 0 then st
    else
      let solarradiance := pyInt (c.gendaylit sun.altitude month day hour dnr dhr)
      { st with
        events := st.events ++ [.genday sun.altitude month day hour dnr dhr]
        solarradiances := st.solarradiances ++ [solarradiance]
        sunValues := st.sunValues ++
          [⟨count, solarradiance,
            (-sun.sunVector.1, -sun.sunVector.2.1, -sun.sunVector.2.2)⟩]
        sunUpHours := st.sunUpHours ++ [timecount] }

/-- The whole per-hour loop of `SunMatrix.execute`. -/
def runLoop (c : Collab) (wea : Wea) (sp : ℕ → ℕ → ℚ → Sun)
    (hoys : List ℕ) : LoopState :=
  (enumFrom 0 hoys).foldl (loopStep c wea sp) LoopState.init

/-- Whether a requested hour survives the filtering of the loop: nonzero
(truncated) direct-normal radiation and non-negative solar altitude. The
two tests appear in the order of the source's two `continue`s. -/
def survives (c : Collab) (wea : Wea) (sp : ℕ → ℕ → ℚ → Sun)
    (idx : ℕ) : Bool :=
  let ts := c.fromHoy idx
  if pyInt (wea.directNormalRadiation ts.intHOY) = 0 then false
  else if (sp ts.month ts.day (ts.hour + 1/2)).altitude < 0 then false
  else true

/-- The radiance value computed for a surviving hour:
`int(gendaylit(sun.altitude, month, day, hour, dnr, dhr))`. -/
def radOf (c : Collab) (wea : Wea) (sp : ℕ → ℕ → ℚ → Sun)
    (idx : ℕ) : ℤ :=
  let ts := c.fromHoy idx
  let dnr := pyInt (wea.directNormalRadiation ts.intHOY)
  let dhr := pyInt (wea.diffuseHorizontalRadiation ts.intHOY)
  let sun := sp ts.month ts.day (ts.hour + 1/2)
  pyInt (c.gendaylit sun.altitude ts.month ts.day (ts.hour + 1/2) dnr dhr)

namespace SunMatrix

/-- The cache-hit condition of `SunMatrix.execute`: `reuse` is true, the
signature file matches, and (the `for`/`break`/`else`) all three output
files exist. -/
def cacheHit (fs : FS) (s : SunMatrix) (workingDir : String)
    (reuse : Bool) : Bool :=
  let fp := joinPath workingDir s.analemmafile
  let lfp := joinPath workingDir s.sunlistfile
  let mfp := joinPath workingDir s.sunmtxfile
  let hrf := joinPath workingDir (s.name ++ ".hrs")
  reuse && s.hoursMatch fs hrf &&
    (fs fp).isSome && (fs lfp).isSome && (fs mfp).isSome

/-- The matrix rows written by `SunMatrix.execute`: for each
`(idx, sunValue)` of `enumerate(solarradiances)`, a row of
`len(hoys)` cells `'0 0 0'` with the cell at `sunUpHours[idx]` replaced by
`'{v} {v} {v}'`. -/
def buildRows (ncols : ℕ) (solarradiances : List ℤ)
    (sunUpHours : List ℕ) : List (List Cell) :=
  (enumFrom 0 solarradiances).map (fun p =>
    (List.replicate ncols ((0, 0, 0) : Cell)).set (sunUpHours.getD p.1 0)
      (p.2, p.2, p.2))

/-- `SunMatrix.execute(workingDir, reuse)`. Returns the ordered trace of
effects and the returned triple `(fp, lfp, mfp)`; the resulting filesystem
is `applyEvs fs` of the trace. On a cache hit the trace is empty (nothing
is written, no collaborator is called). -/
def execute (c : Collab) (s : SunMatrix) (fs : FS) (workingDir : String)
    (reuse : Bool) : List Ev × (String × String × String) :=
  let fp := joinPath workingDir s.analemmafile
  let lfp := joinPath workingDir s.sunlistfile
  let mfp := joinPath workingDir s.sunmtxfile
  let hrf := joinPath workingDir (s.name ++ ".hrs")
  if s.cacheHit fs workingDir reuse then
    ([], (fp, lfp, mfp))
  else
    let sigContent := renderHours s.hoys ++ "\n"
    let latitude := s.wea.location.latitude
    let longitude := -s.wea.location.longitude
    let sp := c.sunpathFrom s.wea.location s.north
    let st := runLoop c s.wea sp s.hoys
    let sunCount := st.sunUpHours.length
    let sunIds := (List.range sunCount).map (fun idx => "solar" ++ toString (idx + 1))
    let header : MtxHeader :=
      { latlong := (latitude, -longitude)
        nrows := sunCount
        ncols := s.hoys.length
        ncomp := 3
        format := "ascii" }
    let rows := buildRows s.hoys.length st.solarradiances st.sunUpHours
    (.sigWrite hrf sigContent ::
       .sunpathFrom s.wea.location s.north ::
       st.events ++
       [.annWrite fp st.sunValues, .sunWrite lfp sunIds,
        .mtxWrite mfp header rows],
     (fp, lfp, mfp))

/-- The sun-path function used by `execute`:
`Sunpath.fromLocation(wea.location, north).calculateSun`. -/
def spOf (c : Collab) (s : SunMatrix) : ℕ → ℕ → ℚ → Sun :=
  c.sunpathFrom s.wea.location s.north

/-- The loop accumulator produced by `execute` on the cache-miss path. -/
def loopOf (c : Collab) (s : SunMatrix) : LoopState :=
  runLoop c s.wea (spOf c s) s.hoys

end SunMatrix

/-- Selects the content of an `.ann` write. -/
def annSel : Ev → Option (List AnnEntry)
  | .annWrite _ es => some es
  | _ => none

/-- Selects the content of a `.sun` write. -/
def sunSel : Ev → Option (List String)
  | .sunWrite _ ids => some ids
  | _ => none

/-- Selects the content of an `.mtx` write. -/
def mtxSel : Ev → Option (MtxHeader × List (List Cell))
  | .mtxWrite _ h rs => some (h, rs)
  | _ => none

/-- Selects the arguments of a `Sunpath.fromLocation` call. -/
def spSel : Ev → Option (Location × ℚ)
  | .sunpathFrom loc n => some (loc, n)
  | _ => none

/-- The `.ann` contents written in a trace. -/
def annWrites (t : List Ev) : List (List AnnEntry) :=
  t.filterMap annSel

/-- The `.sun` contents written in a trace. -/
def sunWrites (t : List Ev) : List (List String) :=
  t.filterMap sunSel

/-- The `.mtx` contents written in a trace. -/
def mtxWrites (t : List Ev) : List (MtxHeader × List (List Cell)) :=
  t.filterMap mtxSel

/-- The arguments of the `Sunpath.fromLocation` calls in a trace. -/
def sunpathCalls (t : List Ev) : List (Location × ℚ) :=
  t.filterMap spSel

/-- Whether an event is one of the per-hour collaborator calls made inside
the generation loop. -/
def isCallEv : Ev → Bool
  | .fromHoy _ => true
  | .calcSun _ _ _ => true
  | .genday _ _ _ _ _ _ => true
  | _ => false

/-- Full regeneration, as observed on a trace: the first event is the
signature write, and all three outputs are (re)written. -/
def fullGeneration (t : List Ev) (hrf fp lfp mfp : String)
    (sig : String) : Prop :=
  t.head? = some (.sigWrite hrf sig) ∧
  (∃ es, Ev.annWrite fp es ∈ t) ∧
  (∃ ids, Ev.sunWrite lfp ids ∈ t) ∧
  (∃ h rs, Ev.mtxWrite mfp h rs ∈ t)

/-! ### Glass material (`src/honeybee/radiance/material/glass.py`) -/

/-- The Radiance `Glass` material: the fields set by `Glass.__init__`
(`RadianceMaterial.__init__` stores name, type `"glass"` and modifier;
the three transmittance setters and the refraction index follow).
Transmittance floats are modelled as `ℚ`. -/
structure Glass where
  name : String
  type : String
  modifier : String
  r_transmittance : ℚ
  g_transmittance : ℚ
  b_transmittance : ℚ
  refractionIndex : ℚ
  deriving DecidableEq, Repr

/-- The `r_transmittance` setter: `assert 0 <= value <= 1` then store.
A failed assertion raises, and nothing is stored. -/
def setRTransmittance (gl : Glass) (v : ℚ) : Except String Glass :=
  if 0 ≤ v ∧ v ≤ 1 then .ok { gl with r_transmittance := v }
  else .error "Red transmittance should be between 0 and 1"

/-- The `g_transmittance` setter. -/
def setGTransmittance (gl : Glass) (v : ℚ) : Except String Glass :=
  if 0 ≤ v ∧ v ≤ 1 then .ok { gl with g_transmittance := v }
  else .error "Green transmittance should be between 0 and 1"

/-- The `b_transmittance` setter. -/
def setBTransmittance (gl : Glass) (v : ℚ) : Except String Glass :=
  if 0 ≤ v ∧ v ≤ 1 then .ok { gl with b_transmittance := v }
  else .error "Blue transmittance should be between 0 and 1"

/-- `Glass.__init__(name, r_transmittance, g_transmittance,
b_transmittance, refraction, modifier)`: the base constructor stores
name/type/modifier, then the three setters run in order (each through its
assertion), then the refraction index is stored. The not-yet-assigned
transmittance slots of the intermediate record are the constructor's
default `0`. -/
def Glass.create (name : String) (r g b refr : ℚ) (modifier : String) :
    Except String Glass :=
  let base : Glass :=
    { name := name, type := "glass", modifier := modifier
      r_transmittance := 0, g_transmittance := 0, b_transmittance := 0
      refractionIndex := 0 }
  match setRTransmittance base r with
  | .error e => .error e
  | .ok g1 =>
    match setGTransmittance g1 g with
    | .error e => .error e
    | .ok g2 =>
      match setBTransmittance g2 b with
      | .error e => .error e
      | .ok g3 => .ok { g3 with refractionIndex := refr }

/-! ### A concrete scenario, used for concrete evaluations of `execute`

Weather with two hours of interest: hour 9 has direct-normal radiation 300
but the sun below the horizon (altitude −10), hour 5 has radiation 500 and
the sun up (altitude 45). The `fromHoy` collaborator tags the month with
the hour-of-year so the sun-path stub can dispatch on it. -/

/-- Concrete weather series. -/
def exWea : Wea :=
  { location := ⟨"STN", 40, 10⟩
    directNormalRadiation := fun h =>
      if h = 5 then 500 else if h = 9 then 300 else 0
    diffuseHorizontalRadiation := fun _ => 100 }

/-- Concrete collaborators: the sun is below the horizon exactly for the
hour-of-year 9 (encoded in the month slot). -/
def exCollab : Collab :=
  { fromHoy := fun h => ⟨h, 1, 0, h⟩
    sunpathFrom := fun _ _ => fun m _ _ =>
      if m = 9 then ⟨-10, (1, 2, 3)⟩ else ⟨45, (1, 2, 3)⟩
    gendaylit := fun _ _ _ _ _ _ => 100 }

/-- A `SunMatrix` requesting hour 9 (radiating, sun down) before hour 5
(radiating, sun up). -/
def exSm : SunMatrix := ⟨exWea, 0, [9, 5]⟩

/-- An empty filesystem. -/
def exFsEmpty : FS := fun _ => none

/-- Same request with hour 6 in place of hour 5 (equal length, different
elements). -/
def exSm6 : SunMatrix := ⟨exWea, 0, [9, 6]⟩

/-- Same location as `exWea` but entirely different radiation values. -/
def exWea7 : Wea :=
  { location := ⟨"STN", 40, 10⟩
    directNormalRadiation := fun _ => 123
    diffuseHorizontalRadiation := fun _ => 7 }

/-- Same name and hours as `exSm`, different weather data. -/
def exSm7 : SunMatrix := ⟨exWea7, 0, [9, 5]⟩

/-- A filesystem where every path holds the matching signature text, so
the signature matches and all three outputs exist. -/
def exFsAll : FS := fun _ => some (.text "9,5\n")

/-- Like `exFsAll` but with the `.mtx` output deleted. -/
def exFsNoMtx : FS := fun p =>
  if p = joinPath "wd" exSm.sunmtxfile then none
  else some (.text "9,5\n")

/-- A concrete glass material. -/
def exGlass : Glass := ⟨"g", "glass", "void", 0, 0, 0, 2⟩

/-!
## Claims
-/

/-- **C1.** The claim states that a skipped hour (zero direct-normal
radiation, or negative solar altitude) advances no counter, so that the
identifier of the k-th surviving hour in the `.ann` file is `solar<k>`,
the k-th line of the `.sun` file. The code advances `count` *before* the
altitude test, so an hour with nonzero radiation but negative altitude
advances the counter while emitting nothing: on the request `[9, 5]`
(hour 9 radiating with the sun down, hour 5 surviving), the only `.ann`
definition is named `solar2` while the only `.sun` line is `solar1`. -/
theorem C1_ann_sun_identifier_mismatch :
    (annWrites (SunMatrix.execute exCollab exSm exFsEmpty "wd" false).1).map
        (·.map annId) = [["solar2"]] ∧
    sunWrites (SunMatrix.execute exCollab exSm exFsEmpty "wd" false).1
        = [["solar1"]] ∧
    "solar2" ≠ "solar1" := by
  decide

/-! ### Helper lemmas about `enumFrom` -/

theorem enumFrom_length {α : Type _} : ∀ (n : ℕ) (l : List α),
    (enumFrom n l).length = l.length
  | _, [] => rfl
  | n, _ :: as => by simp [enumFrom, enumFrom_length (n + 1) as]

theorem enumFrom_getElem? {α : Type _} :
    ∀ (n i : ℕ) (l : List α),
      (enumFrom n l)[i]? = l[i]?.map (fun a => (n + i, a))
  | _, _, [] => by simp [enumFrom]
  | n, 0, a :: as => by simp [enumFrom]
  | n, i + 1, a :: as => by
    simp only [enumFrom, List.getElem?_cons_succ, enumFrom_getElem? (n + 1) i as]
    rcases as[i]? with _ | b <;> simp <;> omega

theorem mem_enumFrom {α : Type _} {p : ℕ × α} :
    ∀ {n : ℕ} {l : List α}, p ∈ enumFrom n l →
      n ≤ p.1 ∧ p.1 - n < l.length ∧ l[p.1 - n]? = some p.2
  | n, [], h => by simp [enumFrom] at h
  | n, a :: as, h => by
    rcases List.mem_cons.1 h with h | h
    · subst h
      simp
    · obtain ⟨h1, h2, h3⟩ := mem_enumFrom (n := n + 1) h
      refine ⟨by omega, by simp; omega, ?_⟩
      have hpn : p.1 - n = (p.1 - (n + 1)) + 1 := by omega
      rw [hpn, List.getElem?_cons_succ]
      exact h3

theorem enumFrom_filter_length {α : Type _} (q : α → Bool) :
    ∀ (n : ℕ) (l : List α),
      ((enumFrom n l).filter (fun p => q p.2)).length = (l.filter q).length
  | _, [] => rfl
  | n, a :: as => by
    simp only [enumFrom, List.filter_cons]
    by_cases hq : q a <;>
      simp [hq, enumFrom_filter_length q (n + 1) as]

/-! ### Characterization of the generation loop -/

theorem loopStep_sunUpHours (c : Collab) (wea : Wea) (sp : ℕ → ℕ → ℚ → Sun)
    (st : LoopState) (p : ℕ × ℕ) :
    (loopStep c wea sp st p).sunUpHours =
      st.sunUpHours ++ if survives c wea sp p.2 then [p.1] else [] := by
  simp only [loopStep, survives]
  split_ifs <;> simp_all

theorem loopStep_solarradiances (c : Collab) (wea : Wea)
    (sp : ℕ → ℕ → ℚ → Sun) (st : LoopState) (p : ℕ × ℕ) :
    (loopStep c wea sp st p).solarradiances =
      st.solarradiances ++
        if survives c wea sp p.2 then [radOf c wea sp p.2] else [] := by
  simp only [loopStep, survives, radOf]
  split_ifs <;> simp_all

theorem loopStep_sunValues_length (c : Collab) (wea : Wea)
    (sp : ℕ → ℕ → ℚ → Sun) (st : LoopState) (p : ℕ × ℕ) :
    (loopStep c wea sp st p).sunValues.length =
      st.sunValues.length + if survives c wea sp p.2 then 1 else 0 := by
  simp only [loopStep, survives]
  split_ifs <;> simp_all

theorem loopStep_events_mem (c : Collab) (wea : Wea) (sp : ℕ → ℕ → ℚ → Sun)
    (st : LoopState) (p : ℕ × ℕ) (e : Ev)
    (he : e ∈ (loopStep c wea sp st p).events) :
    e ∈ st.events ∨ isCallEv e = true := by
  simp only [loopStep] at he
  split_ifs at he
  · simp only [List.mem_append, List.mem_singleton] at he
    rcases he with he | rfl
    · exact Or.inl he
    · exact Or.inr rfl
  · simp only [List.mem_append, List.mem_singleton] at he
    rcases he with (he | rfl) | rfl
    · exact Or.inl he
    · exact Or.inr rfl
    · exact Or.inr rfl
  · simp only [List.mem_append, List.mem_singleton] at he
    rcases he with ((he | rfl) | rfl) | rfl
    · exact Or.inl he
    · exact Or.inr rfl
    · exact Or.inr rfl
    · exact Or.inr rfl

theorem loop_sunUpHours (c : Collab) (wea : Wea) (sp : ℕ → ℕ → ℚ → Sun) :
    ∀ (l : List (ℕ × ℕ)) (st : LoopState),
      (l.foldl (loopStep c wea sp) st).sunUpHours =
        st.sunUpHours ++
          ((l.filter (fun p => survives c wea sp p.2)).map Prod.fst)
  | [], st => by simp
  | p :: rest, st => by
    rw [List.foldl_cons, loop_sunUpHours c wea sp rest, loopStep_sunUpHours,
      List.filter_cons]
    by_cases h : survives c wea sp p.2 <;> simp [h]

theorem loop_solarradiances (c : Collab) (wea : Wea) (sp : ℕ → ℕ → ℚ → Sun) :
    ∀ (l : List (ℕ × ℕ)) (st : LoopState),
      (l.foldl (loopStep c wea sp) st).solarradiances =
        st.solarradiances ++
          ((l.filter (fun p => survives c wea sp p.2)).map
            (fun p => radOf c wea sp p.2))
  | [], st => by simp
  | p :: rest, st => by
    rw [List.foldl_cons, loop_solarradiances c wea sp rest,
      loopStep_solarradiances, List.filter_cons]
    by_cases h : survives c wea sp p.2 <;> simp [h]

theorem loop_sunValues_length (c : Collab) (wea : Wea)
    (sp : ℕ → ℕ → ℚ → Sun) :
    ∀ (l : List (ℕ × ℕ)) (st : LoopState),
      (l.foldl (loopStep c wea sp) st).sunValues.length =
        st.sunValues.length +
          (l.filter (fun p => survives c wea sp p.2)).length
  | [], st => by simp
  | p :: rest, st => by
    rw [List.foldl_cons, loop_sunValues_length c wea sp rest,
      loopStep_sunValues_length, List.filter_cons]
    by_cases h : survives c wea sp p.2 <;> simp [h] <;> omega

theorem loop_events_mem (c : Collab) (wea : Wea) (sp : ℕ → ℕ → ℚ → Sun) :
    ∀ (l : List (ℕ × ℕ)) (st : LoopState) (e : Ev),
      e ∈ (l.foldl (loopStep c wea sp) st).events →
        e ∈ st.events ∨ isCallEv e = true
  | [], st, e, he => Or.inl he
  | p :: rest, st, e, he => by
    rw [List.foldl_cons] at he
    rcases loop_events_mem c wea sp rest (loopStep c wea sp st p) e he with
      h | h
    · exact loopStep_events_mem c wea sp st p e h
    · exact Or.inr h

theorem runLoop_sunUpHours (c : Collab) (wea : Wea) (sp : ℕ → ℕ → ℚ → Sun)
    (hoys : List ℕ) :
    (runLoop c wea sp hoys).sunUpHours =
      ((enumFrom 0 hoys).filter (fun p => survives c wea sp p.2)).map
        Prod.fst := by
  rw [runLoop, loop_sunUpHours]
  simp [LoopState.init]

theorem runLoop_solarradiances (c : Collab) (wea : Wea)
    (sp : ℕ → ℕ → ℚ → Sun) (hoys : List ℕ) :
    (runLoop c wea sp hoys).solarradiances =
      ((enumFrom 0 hoys).filter (fun p => survives c wea sp p.2)).map
        (fun p => radOf c wea sp p.2) := by
  rw [runLoop, loop_solarradiances]
  simp [LoopState.init]

theorem runLoop_sunValues_length (c : Collab) (wea : Wea)
    (sp : ℕ → ℕ → ℚ → Sun) (hoys : List ℕ) :
    (runLoop c wea sp hoys).sunValues.length =
      ((enumFrom 0 hoys).filter (fun p => survives c wea sp p.2)).length := by
  rw [runLoop, loop_sunValues_length]
  simp [LoopState.init]

theorem runLoop_events_callEv (c : Collab) (wea : Wea)
    (sp : ℕ → ℕ → ℚ → Sun) (hoys : List ℕ) (e : Ev)
    (he : e ∈ (runLoop c wea sp hoys).events) : isCallEv e = true := by
  rcases loop_events_mem c wea sp (enumFrom 0 hoys) LoopState.init e he with
    h | h
  · simp [LoopState.init] at h
  · exact h

theorem filterMap_runLoop_events {β : Type _} (f : Ev → Option β)
    (hf : ∀ e, isCallEv e = true → f e = none)
    (c : Collab) (wea : Wea) (sp : ℕ → ℕ → ℚ → Sun) (hoys : List ℕ) :
    (runLoop c wea sp hoys).events.filterMap f = [] := by
  rw [List.filterMap_eq_nil_iff]
  exact fun e he => hf e (runLoop_events_callEv c wea sp hoys e he)

theorem annSel_callEv (e : Ev) (he : isCallEv e = true) : annSel e = none := by
  cases e <;> simp_all [annSel, isCallEv]

theorem sunSel_callEv (e : Ev) (he : isCallEv e = true) : sunSel e = none := by
  cases e <;> simp_all [sunSel, isCallEv]

theorem mtxSel_callEv (e : Ev) (he : isCallEv e = true) : mtxSel e = none := by
  cases e <;> simp_all [mtxSel, isCallEv]

theorem spSel_callEv (e : Ev) (he : isCallEv e = true) : spSel e = none := by
  cases e <;> simp_all [spSel, isCallEv]

theorem execute_miss (c : Collab) (s : SunMatrix) (fs : FS) (wd : String)
    (reuse : Bool) (hmiss : s.cacheHit fs wd reuse = false) :
    SunMatrix.execute c s fs wd reuse =
      (Ev.sigWrite (joinPath wd (s.name ++ ".hrs"))
          (SunMatrix.renderHours s.hoys ++ "\n") ::
        Ev.sunpathFrom s.wea.location s.north ::
        (runLoop c s.wea (c.sunpathFrom s.wea.location s.north) s.hoys).events ++
        [Ev.annWrite (joinPath wd s.analemmafile)
            (runLoop c s.wea (c.sunpathFrom s.wea.location s.north)
              s.hoys).sunValues,
         Ev.sunWrite (joinPath wd s.sunlistfile)
            ((List.range (runLoop c s.wea (c.sunpathFrom s.wea.location s.north)
                s.hoys).sunUpHours.length).map
              (fun idx => "solar" ++ toString (idx + 1))),
         Ev.mtxWrite (joinPath wd s.sunmtxfile)
            ⟨(s.wea.location.latitude, s.wea.location.longitude),
              (runLoop c s.wea (c.sunpathFrom s.wea.location s.north)
                s.hoys).sunUpHours.length,
              s.hoys.length, 3, "ascii"⟩
            (SunMatrix.buildRows s.hoys.length
              (runLoop c s.wea (c.sunpathFrom s.wea.location s.north)
                s.hoys).solarradiances
              (runLoop c s.wea (c.sunpathFrom s.wea.location s.north)
                s.hoys).sunUpHours)],
       (joinPath wd s.analemmafile, joinPath wd s.sunlistfile,
        joinPath wd s.sunmtxfile)) := by
  rw [SunMatrix.execute, hmiss]
  simp only [Bool.false_eq_true, if_false, neg_neg]

/-! ### String helpers for path distinctness -/

theorem string_append_left_cancel {a b c : String} (h : a ++ b = a ++ c) :
    b = c := by
  apply String.ext
  have hd := congrArg String.data h
  rw [String.data_append, String.data_append] at hd
  exact List.append_cancel_left hd

theorem string_append_right_cancel {a b c : String} (h : a ++ c = b ++ c) :
    a = b := by
  apply String.ext
  have hd := congrArg String.data h
  rw [String.data_append, String.data_append] at hd
  exact List.append_cancel_right hd

theorem joinPath_ext_ne (d n : String) {a b : String} (h : a ≠ b) :
    joinPath d (n ++ a) ≠ joinPath d (n ++ b) := by
  intro he
  exact h (string_append_left_cancel (string_append_left_cancel he))

/-- **C2.** With `reuse = true`, a signature file whose content is exactly
the comma-joined hour indices plus a trailing newline, and all three output
files present, `execute` returns the three paths with an empty effect
trace (no collaborator call, no file write). If any one output file is
missing, full regeneration happens even though the signature matches. -/
theorem C2_cache_hit_conjunctive (c : Collab) (s : SunMatrix) (fs : FS)
    (wd : String)
    (hsig : fs (joinPath wd (s.name ++ ".hrs")) =
      some (.text (SunMatrix.renderHours s.hoys ++ "\n"))) :
    ((fs (joinPath wd s.analemmafile)).isSome = true →
     (fs (joinPath wd s.sunlistfile)).isSome = true →
     (fs (joinPath wd s.sunmtxfile)).isSome = true →
      SunMatrix.execute c s fs wd true =
        ([], (joinPath wd s.analemmafile, joinPath wd s.sunlistfile,
              joinPath wd s.sunmtxfile))) ∧
    ((fs (joinPath wd s.analemmafile) = none ∨
      fs (joinPath wd s.sunlistfile) = none ∨
      fs (joinPath wd s.sunmtxfile) = none) →
      fullGeneration (SunMatrix.execute c s fs wd true).1
        (joinPath wd (s.name ++ ".hrs")) (joinPath wd s.analemmafile)
        (joinPath wd s.sunlistfile) (joinPath wd s.sunmtxfile)
        (SunMatrix.renderHours s.hoys ++ "\n")) := by
  constructor
  · intro h1 h2 h3
    have hhit : s.cacheHit fs wd true = true := by
      simp [SunMatrix.cacheHit, SunMatrix.hoursMatch, hsig, h1, h2, h3]
    simp only [SunMatrix.execute, hhit, if_true]
  · intro hmissing
    have hmiss : s.cacheHit fs wd true = false := by
      rcases hmissing with h | h | h <;> simp [SunMatrix.cacheHit, h]
    rw [execute_miss c s fs wd true hmiss]
    refine ⟨rfl, ?_, ?_, ?_⟩
    · exact ⟨(runLoop c s.wea (c.sunpathFrom s.wea.location s.north)
        s.hoys).sunValues, by simp⟩
    · exact ⟨(List.range (runLoop c s.wea (c.sunpathFrom s.wea.location
        s.north) s.hoys).sunUpHours.length).map
          (fun idx => "solar" ++ toString (idx + 1)), by simp⟩
    · exact ⟨⟨(s.wea.location.latitude, s.wea.location.longitude),
        (runLoop c s.wea (c.sunpathFrom s.wea.location s.north)
          s.hoys).sunUpHours.length, s.hoys.length, 3, "ascii"⟩,
        SunMatrix.buildRows s.hoys.length
          (runLoop c s.wea (c.sunpathFrom s.wea.location s.north)
            s.hoys).solarradiances
          (runLoop c s.wea (c.sunpathFrom s.wea.location s.north)
            s.hoys).sunUpHours, by simp⟩

/-- **C3.** The cache-validity test is exact string equality: it is false
whenever the signature file does not exist, and a signature written for one
hour sequence never matches a request whose comma-joined rendering
differs. -/
theorem C3_signature_exact_match (s1 s2 : SunMatrix) (fs : FS)
    (hf : String) :
    (fs hf = none → SunMatrix.hoursMatch fs s2 hf = false) ∧
    (SunMatrix.renderHours s1.hoys ≠ SunMatrix.renderHours s2.hoys →
      SunMatrix.hoursMatch
        (fun p => if p = hf then
            some (.text (SunMatrix.renderHours s1.hoys ++ "\n"))
          else fs p)
        s2 hf = false) := by
  constructor
  · intro h
    simp [SunMatrix.hoursMatch, h]
  · intro hne
    simp only [SunMatrix.hoursMatch]
    simp only [if_pos, eq_self_iff_true, if_true, decide_eq_false_iff_not]
    intro heq
    exact hne (string_append_right_cancel heq)

/-- **C7.** The cache decision of `execute` depends only on the hour
sequence, the computed name and the filesystem: two runs over weather
series that agree on the computed name and the hour sequence (but may have
arbitrarily different radiation values) make the same hit/miss decision,
and on a hit both return the same triple of paths without any effect. -/
theorem C7_cache_decision_weather_independent (c1 c2 : Collab)
    (s1 s2 : SunMatrix) (fs : FS) (wd : String) (reuse : Bool)
    (hname : s1.name = s2.name) (hhoys : s1.hoys = s2.hoys) :
    s1.cacheHit fs wd reuse = s2.cacheHit fs wd reuse ∧
    (s1.cacheHit fs wd reuse = true →
      SunMatrix.execute c1 s1 fs wd reuse =
        SunMatrix.execute c2 s2 fs wd reuse) := by
  have hch : s1.cacheHit fs wd reuse = s2.cacheHit fs wd reuse := by
    simp [SunMatrix.cacheHit, SunMatrix.hoursMatch, SunMatrix.analemmafile,
      SunMatrix.sunlistfile, SunMatrix.sunmtxfile, hname, hhoys]
  refine ⟨hch, fun hhit => ?_⟩
  have hhit2 : s2.cacheHit fs wd reuse = true := hch ▸ hhit
  simp only [SunMatrix.execute, hhit, hhit2, if_true]
  simp [SunMatrix.analemmafile, SunMatrix.sunlistfile, SunMatrix.sunmtxfile,
    hname]

/-- **C10.** An empty hours collection in the constructor is
indistinguishable from passing no hours at all: `hoys` becomes the full
range `0..8759`, and every subsequent operation behaves identically. -/
theorem C10_empty_hoys_default (wea : Wea) (north : Option ℚ) :
    mkSunMatrix wea north (some []) = mkSunMatrix wea north none ∧
    (mkSunMatrix wea north (some [])).hoys = List.range 8760 ∧
    (∀ (c : Collab) (fs : FS) (wd : String) (reuse : Bool),
      SunMatrix.execute c (mkSunMatrix wea north (some [])) fs wd reuse =
        SunMatrix.execute c (mkSunMatrix wea north none) fs wd reuse) := by
  have h1 : mkSunMatrix wea north (some []) = mkSunMatrix wea north none :=
    by simp [mkSunMatrix]
  exact ⟨h1, by simp [mkSunMatrix], fun c fs wd reuse => by rw [h1]⟩

/-- **C6.** On the cache-miss path the signature file is written before
any collaborator call and before any output-file write: it is the very
first event of the trace. Replaying only that first event yields a
filesystem whose signature already matches the new request while the three
output files are exactly as before — the operation is not atomic with
respect to the cache state. -/
theorem C6_signature_written_first (c : Collab) (s : SunMatrix) (fs : FS)
    (wd : String) (reuse : Bool)
    (hmiss : s.cacheHit fs wd reuse = false) :
    (SunMatrix.execute c s fs wd reuse).1.head? =
      some (.sigWrite (joinPath wd (s.name ++ ".hrs"))
        (SunMatrix.renderHours s.hoys ++ "\n")) ∧
    SunMatrix.hoursMatch
      (applyEv fs (.sigWrite (joinPath wd (s.name ++ ".hrs"))
        (SunMatrix.renderHours s.hoys ++ "\n")))
      s (joinPath wd (s.name ++ ".hrs")) = true ∧
    applyEv fs (.sigWrite (joinPath wd (s.name ++ ".hrs"))
        (SunMatrix.renderHours s.hoys ++ "\n"))
      (joinPath wd s.analemmafile) = fs (joinPath wd s.analemmafile) ∧
    applyEv fs (.sigWrite (joinPath wd (s.name ++ ".hrs"))
        (SunMatrix.renderHours s.hoys ++ "\n"))
      (joinPath wd s.sunlistfile) = fs (joinPath wd s.sunlistfile) ∧
    applyEv fs (.sigWrite (joinPath wd (s.name ++ ".hrs"))
        (SunMatrix.renderHours s.hoys ++ "\n"))
      (joinPath wd s.sunmtxfile) = fs (joinPath wd s.sunmtxfile) := by
  refine ⟨?_, ?_, ?_, ?_, ?_⟩
  · rw [execute_miss c s fs wd reuse hmiss]
    rfl
  · simp [applyEv, SunMatrix.hoursMatch]
  · simp only [applyEv, SunMatrix.analemmafile]
    rw [if_neg (joinPath_ext_ne wd s.name (by decide))]
  · simp only [applyEv, SunMatrix.sunlistfile]
    rw [if_neg (joinPath_ext_ne wd s.name (by decide))]
  · simp only [applyEv, SunMatrix.sunmtxfile]
    rw [if_neg (joinPath_ext_ne wd s.name (by decide))]

/-- **C8 (amended).** On the cache-miss path the longitude is negated into
a local variable that is used only for the header line: the astronomy
collaborator receives the location object carrying the original longitude,
and the header's LATLONG pair is the latitude together with the doubly
negated — hence original — longitude. -/
theorem C8_latlong_header (c : Collab) (s : SunMatrix) (fs : FS)
    (wd : String) (reuse : Bool)
    (hmiss : s.cacheHit fs wd reuse = false) :
    sunpathCalls (SunMatrix.execute c s fs wd reuse).1 =
      [(s.wea.location, s.north)] ∧
    (mtxWrites (SunMatrix.execute c s fs wd reuse).1).map
        (fun p => p.1.latlong) =
      [(s.wea.location.latitude, s.wea.location.longitude)] := by
  rw [execute_miss c s fs wd reuse hmiss]
  constructor
  · simp [sunpathCalls, spSel,
      filterMap_runLoop_events spSel spSel_callEv]
  · simp [mtxWrites, mtxSel,
      filterMap_runLoop_events mtxSel mtxSel_callEv]

/-- **C8 (counterexample).** The claim asserts the longitude is negated
before being passed to the astronomy collaborator. At the concrete
scenario (original longitude 10) the collaborator receives the location
with longitude 10, which differs from the negated value −10. -/
theorem C8_counterexample :
    (sunpathCalls
        (SunMatrix.execute exCollab exSm exFsEmpty "wd" false).1).map
      (fun p => p.1.longitude) = [10] ∧
    (10 : ℚ) ≠ -10 := by
  decide

/-- **C9.** Constructing a `Glass`, or assigning any of the three
transmittance attributes, with a value outside `[0, 1]` raises the
assertion (modelled as `.error`) and stores nothing; every value inside
`[0, 1]` is accepted and stored unchanged, and any successfully stored
channel is inside `[0, 1]`. -/
theorem C9_glass_transmittance_range (gl : Glass) (v : ℚ)
    (nm mod : String) (r g b refr : ℚ) :
    ((0 ≤ v ∧ v ≤ 1) →
      setRTransmittance gl v = .ok { gl with r_transmittance := v } ∧
      setGTransmittance gl v = .ok { gl with g_transmittance := v } ∧
      setBTransmittance gl v = .ok { gl with b_transmittance := v }) ∧
    (¬(0 ≤ v ∧ v ≤ 1) →
      setRTransmittance gl v =
        .error "Red transmittance should be between 0 and 1" ∧
      setGTransmittance gl v =
        .error "Green transmittance should be between 0 and 1" ∧
      setBTransmittance gl v =
        .error "Blue transmittance should be between 0 and 1") ∧
    (∀ res : Glass, setRTransmittance gl v = .ok res →
      0 ≤ res.r_transmittance ∧ res.r_transmittance ≤ 1) ∧
    ((0 ≤ r ∧ r ≤ 1) → (0 ≤ g ∧ g ≤ 1) → (0 ≤ b ∧ b ≤ 1) →
      Glass.create nm r g b refr mod =
        .ok ⟨nm, "glass", mod, r, g, b, refr⟩) ∧
    (¬((0 ≤ r ∧ r ≤ 1) ∧ (0 ≤ g ∧ g ≤ 1) ∧ (0 ≤ b ∧ b ≤ 1)) →
      ∃ e, Glass.create nm r g b refr mod = .error e) := by
  refine ⟨?_, ?_, ?_, ?_, ?_⟩
  · intro hv
    simp [setRTransmittance, setGTransmittance, setBTransmittance, hv]
  · intro hv
    simp [setRTransmittance, setGTransmittance, setBTransmittance, hv]
  · intro res hres
    simp only [setRTransmittance] at hres
    split_ifs at hres with h
    simp only [Except.ok.injEq] at hres
    subst hres
    exact h
  · intro hr hg hb
    simp [Glass.create, setRTransmittance, setGTransmittance,
      setBTransmittance, hr, hg, hb]
  · intro hbad
    by_cases hr : 0 ≤ r ∧ r ≤ 1
    · by_cases hg : 0 ≤ g ∧ g ≤ 1
      · have hb : ¬(0 ≤ b ∧ b ≤ 1) := fun hb => hbad ⟨hr, hg, hb⟩
        exact ⟨"Blue transmittance should be between 0 and 1",
          by simp [Glass.create, setRTransmittance, setGTransmittance,
            setBTransmittance, hr, hg, hb]⟩
      · exact ⟨"Green transmittance should be between 0 and 1",
          by simp [Glass.create, setRTransmittance, setGTransmittance,
            setBTransmittance, hr, hg]⟩
    · exact ⟨"Red transmittance should be between 0 and 1",
        by simp [Glass.create, setRTransmittance, hr]⟩

/-! ### Row-level helpers for the `.mtx` body -/

theorem enumFrom_get {α : Type _} (n : ℕ) (l : List α) (i : ℕ)
    (hi : i < l.length) (hi2 : i < (enumFrom n l).length) :
    (enumFrom n l).get ⟨i, hi2⟩ = (n + i, l.get ⟨i, hi⟩) := by
  have h1 := enumFrom_getElem? n i l
  rw [List.getElem?_eq_getElem hi2, List.getElem?_eq_getElem hi,
    Option.map_some'] at h1
  rw [List.get_eq_getElem, List.get_eq_getElem]
  exact Option.some.inj h1

theorem buildRows_length (n : ℕ) (rads : List ℤ) (hrs : List ℕ) :
    (SunMatrix.buildRows n rads hrs).length = rads.length := by
  simp [SunMatrix.buildRows, enumFrom_length]

theorem buildRows_get (n : ℕ) (rads : List ℤ) (hrs : List ℕ) (i : ℕ)
    (hi : i < rads.length)
    (hi2 : i < (SunMatrix.buildRows n rads hrs).length) :
    (SunMatrix.buildRows n rads hrs).get ⟨i, hi2⟩ =
      (List.replicate n ((0, 0, 0) : Cell)).set (hrs.getD i 0)
        (rads.get ⟨i, hi⟩, rads.get ⟨i, hi⟩, rads.get ⟨i, hi⟩) := by
  have hb : i < (enumFrom 0 rads).length := by
    rw [enumFrom_length]
    exact hi
  have he := enumFrom_get 0 rads i hi hb
  rw [List.get_eq_getElem] at he
  simp only [SunMatrix.buildRows]
  rw [List.get_eq_getElem, List.getElem_map, he]
  simp [List.get_eq_getElem]

theorem runLoop_sunUpHours_mem (c : Collab) (wea : Wea)
    (sp : ℕ → ℕ → ℚ → Sun) (hoys : List ℕ) (x : ℕ)
    (hx : x ∈ (runLoop c wea sp hoys).sunUpHours) :
    x < hoys.length ∧ survives c wea sp (hoys.getD x 0) = true := by
  rw [runLoop_sunUpHours] at hx
  obtain ⟨p, hp, hfst⟩ := List.mem_map.1 hx
  obtain ⟨hpe, hps⟩ := List.mem_filter.1 hp
  obtain ⟨h1, h2, h3⟩ := mem_enumFrom hpe
  subst hfst
  have hlt : p.1 < hoys.length := by omega
  refine ⟨hlt, ?_⟩
  have hgd : hoys.getD p.1 0 = p.2 := by
    rw [List.getD_eq_getElem hoys 0 hlt]
    have h4 : hoys[p.1]? = some p.2 := by simpa using h3
    rw [List.getElem?_eq_getElem hlt] at h4
    exact Option.some.inj h4
  rw [hgd]
  exact hps

theorem runLoop_solarradiances_nonzero (c : Collab) (wea : Wea)
    (sp : ℕ → ℕ → ℚ → Sun) (hoys : List ℕ)
    (hg : ∀ alt m d h dnr dhr, pyInt (c.gendaylit alt m d h dnr dhr) ≠ 0)
    (v : ℤ) (hv : v ∈ (runLoop c wea sp hoys).solarradiances) : v ≠ 0 := by
  rw [runLoop_solarradiances] at hv
  obtain ⟨p, hp, hval⟩ := List.mem_map.1 hv
  subst hval
  simp only [radOf]
  exact hg _ _ _ _ _ _

theorem runLoop_lengths (c : Collab) (wea : Wea) (sp : ℕ → ℕ → ℚ → Sun)
    (hoys : List ℕ) :
    (runLoop c wea sp hoys).solarradiances.length =
      (runLoop c wea sp hoys).sunUpHours.length := by
  rw [runLoop_solarradiances, runLoop_sunUpHours, List.length_map,
    List.length_map]

/-- **C4.** On the cache-miss path the emitted `.mtx` file has: NROWS and
the number of row blocks both equal to the count of surviving hours, NCOLS
equal to the total number of requested hours, and every row block holding
exactly NCOLS cells, all `0 0 0` except the single cell at that row's
surviving hour's original position within the requested sequence, whose
three components are the (nonzero, under the stated collaborator
hypothesis) radiance value repeated. -/
theorem C4_mtx_structure (c : Collab) (s : SunMatrix) (fs : FS)
    (wd : String) (reuse : Bool)
    (hg : ∀ alt m d h dnr dhr, pyInt (c.gendaylit alt m d h dnr dhr) ≠ 0)
    (hmiss : s.cacheHit fs wd reuse = false) :
    mtxWrites (SunMatrix.execute c s fs wd reuse).1 =
      [(⟨(s.wea.location.latitude, s.wea.location.longitude),
          (SunMatrix.loopOf c s).sunUpHours.length, s.hoys.length, 3,
          "ascii"⟩,
        SunMatrix.buildRows s.hoys.length
          (SunMatrix.loopOf c s).solarradiances
          (SunMatrix.loopOf c s).sunUpHours)] ∧
    (SunMatrix.loopOf c s).sunUpHours.length =
      (s.hoys.filter (survives c s.wea (SunMatrix.spOf c s))).length ∧
    (SunMatrix.buildRows s.hoys.length
        (SunMatrix.loopOf c s).solarradiances
        (SunMatrix.loopOf c s).sunUpHours).length =
      (SunMatrix.loopOf c s).sunUpHours.length ∧
    ∀ i, ∀ hi : i < (SunMatrix.buildRows s.hoys.length
        (SunMatrix.loopOf c s).solarradiances
        (SunMatrix.loopOf c s).sunUpHours).length,
      ((SunMatrix.buildRows s.hoys.length
          (SunMatrix.loopOf c s).solarradiances
          (SunMatrix.loopOf c s).sunUpHours).get ⟨i, hi⟩).length =
        s.hoys.length ∧
      (SunMatrix.loopOf c s).sunUpHours.getD i 0 < s.hoys.length ∧
      survives c s.wea (SunMatrix.spOf c s)
        (s.hoys.getD ((SunMatrix.loopOf c s).sunUpHours.getD i 0) 0) =
        true ∧
      ((SunMatrix.buildRows s.hoys.length
          (SunMatrix.loopOf c s).solarradiances
          (SunMatrix.loopOf c s).sunUpHours).get ⟨i, hi⟩).getD
          ((SunMatrix.loopOf c s).sunUpHours.getD i 0) (0, 0, 0) =
        ((SunMatrix.loopOf c s).solarradiances.getD i 0,
         (SunMatrix.loopOf c s).solarradiances.getD i 0,
         (SunMatrix.loopOf c s).solarradiances.getD i 0) ∧
      (SunMatrix.loopOf c s).solarradiances.getD i 0 ≠ 0 ∧
      ∀ j, j < s.hoys.length →
        j ≠ (SunMatrix.loopOf c s).sunUpHours.getD i 0 →
        ((SunMatrix.buildRows s.hoys.length
            (SunMatrix.loopOf c s).solarradiances
            (SunMatrix.loopOf c s).sunUpHours).get ⟨i, hi⟩).getD j
          (0, 0, 0) = (0, 0, 0) := by
  refine ⟨?_, ?_, ?_, ?_⟩
  · rw [execute_miss c s fs wd reuse hmiss]
    simp [mtxWrites, mtxSel, SunMatrix.loopOf, SunMatrix.spOf,
      filterMap_runLoop_events mtxSel mtxSel_callEv]
  · rw [SunMatrix.loopOf, runLoop_sunUpHours, List.length_map,
      enumFrom_filter_length]
  · rw [buildRows_length, SunMatrix.loopOf, runLoop_lengths]
  · intro i hi
    have hi1 : i < (SunMatrix.loopOf c s).solarradiances.length := by
      rw [buildRows_length] at hi
      exact hi
    have hi2 : i < (SunMatrix.loopOf c s).sunUpHours.length := by
      rw [SunMatrix.loopOf, runLoop_lengths] at hi1
      exact hi1
    have hrow := buildRows_get s.hoys.length
      (SunMatrix.loopOf c s).solarradiances
      (SunMatrix.loopOf c s).sunUpHours i hi1 hi
    have hposmem : (SunMatrix.loopOf c s).sunUpHours.getD i 0 ∈
        (SunMatrix.loopOf c s).sunUpHours := by
      rw [List.getD_eq_getElem _ 0 hi2]
      exact List.getElem_mem hi2
    have hpos := runLoop_sunUpHours_mem c s.wea (SunMatrix.spOf c s)
      s.hoys ((SunMatrix.loopOf c s).sunUpHours.getD i 0) hposmem
    have hvmem : (SunMatrix.loopOf c s).solarradiances.getD i 0 ∈
        (SunMatrix.loopOf c s).solarradiances := by
      rw [List.getD_eq_getElem _ 0 hi1]
      exact List.getElem_mem hi1
    have hvne := runLoop_solarradiances_nonzero c s.wea
      (SunMatrix.spOf c s) s.hoys hg _ hvmem
    refine ⟨?_, hpos.1, hpos.2, ?_, hvne, ?_⟩
    · rw [hrow, List.length_set, List.length_replicate]
    · rw [hrow]
      have hplen : (SunMatrix.loopOf c s).sunUpHours.getD i 0 <
          ((List.replicate s.hoys.length ((0, 0, 0) : Cell)).set
            ((SunMatrix.loopOf c s).sunUpHours.getD i 0)
            ((SunMatrix.loopOf c s).solarradiances.get ⟨i, hi1⟩,
             (SunMatrix.loopOf c s).solarradiances.get ⟨i, hi1⟩,
             (SunMatrix.loopOf c s).solarradiances.get ⟨i, hi1⟩)).length := by
        rw [List.length_set, List.length_replicate]
        exact hpos.1
      rw [List.getD_eq_getElem _ _ hplen, List.getElem_set_self,
        List.getD_eq_getElem _ 0 hi1, List.get_eq_getElem]
    · intro j hj hjne
      rw [hrow]
      have hjlen : j < ((List.replicate s.hoys.length ((0, 0, 0) : Cell)).set
          ((SunMatrix.loopOf c s).sunUpHours.getD i 0)
          ((SunMatrix.loopOf c s).solarradiances.get ⟨i, hi1⟩,
           (SunMatrix.loopOf c s).solarradiances.get ⟨i, hi1⟩,
           (SunMatrix.loopOf c s).solarradiances.get ⟨i, hi1⟩)).length := by
        rw [List.length_set, List.length_replicate]
        exact hj
      rw [List.getD_eq_getElem _ _ hjlen,
        List.getElem_set_ne (fun he => hjne he.symm),
        List.getElem_replicate]

/-- **C5.** A requested hour whose (truncated) direct-normal radiation is
zero or whose solar altitude is negative leaves no trace in the outputs:
its position never appears among the surviving positions, the `.ann`
entries and `.sun` identifiers are in bijection with the surviving hours
only, the matrix has one row per surviving hour, and the filtered hour's
column is `0 0 0` in every row. -/
theorem C5_filtered_hours_absent (c : Collab) (s : SunMatrix) (fs : FS)
    (wd : String) (reuse : Bool)
    (hmiss : s.cacheHit fs wd reuse = false)
    (t : ℕ) (ht : t < s.hoys.length)
    (hns : survives c s.wea (SunMatrix.spOf c s) (s.hoys.getD t 0) =
      false) :
    t ∉ (SunMatrix.loopOf c s).sunUpHours ∧
    annWrites (SunMatrix.execute c s fs wd reuse).1 =
      [(SunMatrix.loopOf c s).sunValues] ∧
    (SunMatrix.loopOf c s).sunValues.length =
      (SunMatrix.loopOf c s).sunUpHours.length ∧
    sunWrites (SunMatrix.execute c s fs wd reuse).1 =
      [(List.range (SunMatrix.loopOf c s).sunUpHours.length).map
        (fun idx => "solar" ++ toString (idx + 1))] ∧
    (SunMatrix.buildRows s.hoys.length
        (SunMatrix.loopOf c s).solarradiances
        (SunMatrix.loopOf c s).sunUpHours).length =
      (SunMatrix.loopOf c s).sunUpHours.length ∧
    ∀ row ∈ SunMatrix.buildRows s.hoys.length
        (SunMatrix.loopOf c s).solarradiances
        (SunMatrix.loopOf c s).sunUpHours,
      row.getD t (0, 0, 0) = (0, 0, 0) := by
  have hnotin : t ∉ (SunMatrix.loopOf c s).sunUpHours := by
    intro hmem
    have h := runLoop_sunUpHours_mem c s.wea (SunMatrix.spOf c s) s.hoys t
      hmem
    rw [hns] at h
    exact absurd h.2 (by simp)
  refine ⟨hnotin, ?_, ?_, ?_, ?_, ?_⟩
  · rw [execute_miss c s fs wd reuse hmiss]
    simp [annWrites, annSel, SunMatrix.loopOf, SunMatrix.spOf,
      filterMap_runLoop_events annSel annSel_callEv]
  · rw [SunMatrix.loopOf, runLoop, loop_sunValues_length,
      loop_sunUpHours]
    simp [LoopState.init]
  · rw [execute_miss c s fs wd reuse hmiss]
    simp [sunWrites, sunSel, SunMatrix.loopOf, SunMatrix.spOf,
      filterMap_runLoop_events sunSel sunSel_callEv]
  · rw [buildRows_length, SunMatrix.loopOf, runLoop_lengths]
  · intro row hrowmem
    obtain ⟨⟨i, hi⟩, hrowget⟩ := List.mem_iff_get.1 hrowmem
    have hi1 : i < (SunMatrix.loopOf c s).solarradiances.length := by
      rw [buildRows_length] at hi
      exact hi
    have hi2 : i < (SunMatrix.loopOf c s).sunUpHours.length := by
      rw [SunMatrix.loopOf, runLoop_lengths] at hi1
      exact hi1
    have hrow := buildRows_get s.hoys.length
      (SunMatrix.loopOf c s).solarradiances
      (SunMatrix.loopOf c s).sunUpHours i hi1 hi
    have hposmem : (SunMatrix.loopOf c s).sunUpHours.getD i 0 ∈
        (SunMatrix.loopOf c s).sunUpHours := by
      rw [List.getD_eq_getElem _ 0 hi2]
      exact List.getElem_mem hi2
    have hpt : (SunMatrix.loopOf c s).sunUpHours.getD i 0 ≠ t :=
      fun he => hnotin (he ▸ hposmem)
    rw [← hrowget, hrow]
    have htlen : t < ((List.replicate s.hoys.length ((0, 0, 0) : Cell)).set
        ((SunMatrix.loopOf c s).sunUpHours.getD i 0)
        ((SunMatrix.loopOf c s).solarradiances.get ⟨i, hi1⟩,
         (SunMatrix.loopOf c s).solarradiances.get ⟨i, hi1⟩,
         (SunMatrix.loopOf c s).solarradiances.get ⟨i, hi1⟩)).length := by
      rw [List.length_set, List.length_replicate]
      exact ht
    rw [List.getD_eq_getElem _ _ htlen, List.getElem_set_ne hpt,
      List.getElem_replicate]

/-! ### Witnesses -/

/-- Witness for C2 at the concrete scenario: a matching signature with all
three outputs present short-circuits; deleting the `.mtx` output while the
signature still matches forces full regeneration. -/
theorem C2_witness :
    SunMatrix.execute exCollab exSm exFsAll "wd" true =
      ([], (joinPath "wd" exSm.analemmafile, joinPath "wd" exSm.sunlistfile,
            joinPath "wd" exSm.sunmtxfile)) ∧
    fullGeneration (SunMatrix.execute exCollab exSm exFsNoMtx "wd" true).1
      (joinPath "wd" (exSm.name ++ ".hrs")) (joinPath "wd" exSm.analemmafile)
      (joinPath "wd" exSm.sunlistfile) (joinPath "wd" exSm.sunmtxfile)
      (SunMatrix.renderHours exSm.hoys ++ "\n") := by
  constructor
  · exact (C2_cache_hit_conjunctive exCollab exSm exFsAll "wd"
      (by decide)).1 (by decide) (by decide) (by decide)
  · exact (C2_cache_hit_conjunctive exCollab exSm exFsNoMtx "wd"
      (by decide)).2 (Or.inr (Or.inr (by decide)))

/-- Witness for C3 at the concrete scenario: a missing signature file
never matches, and the signature of `[9, 6]` does not validate a request
for `[9, 5]` (equal length, different elements). -/
theorem C3_witness :
    SunMatrix.hoursMatch exFsEmpty exSm "sig" = false ∧
    SunMatrix.hoursMatch
      (fun p => if p = "sig" then
          some (FileContent.text (SunMatrix.renderHours exSm6.hoys ++ "\n"))
        else exFsEmpty p) exSm "sig" = false := by
  have h := C3_signature_exact_match exSm6 exSm exFsEmpty "sig"
  exact ⟨h.1 rfl, h.2 (by decide)⟩

/-- Witness for C4 at the concrete scenario. -/
theorem C4_witness :
    mtxWrites (SunMatrix.execute exCollab exSm exFsEmpty "wd" false).1 =
      [(⟨(exSm.wea.location.latitude, exSm.wea.location.longitude),
          (SunMatrix.loopOf exCollab exSm).sunUpHours.length,
          exSm.hoys.length, 3, "ascii"⟩,
        SunMatrix.buildRows exSm.hoys.length
          (SunMatrix.loopOf exCollab exSm).solarradiances
          (SunMatrix.loopOf exCollab exSm).sunUpHours)] ∧
    (SunMatrix.loopOf exCollab exSm).sunUpHours.length =
      (exSm.hoys.filter (survives exCollab exSm.wea
        (SunMatrix.spOf exCollab exSm))).length := by
  have h := C4_mtx_structure exCollab exSm exFsEmpty "wd" false
    (fun _ _ _ _ _ _ => by
      show pyInt 100 ≠ 0
      decide) (by decide)
  exact ⟨h.1, h.2.1⟩

/-- Witness for C5 at the concrete scenario: requested hour 9 (position 0)
radiates but has the sun below the horizon, and leaves no trace. -/
theorem C5_witness :
    0 ∉ (SunMatrix.loopOf exCollab exSm).sunUpHours ∧
    annWrites (SunMatrix.execute exCollab exSm exFsEmpty "wd" false).1 =
      [(SunMatrix.loopOf exCollab exSm).sunValues] := by
  have h := C5_filtered_hours_absent exCollab exSm exFsEmpty "wd" false
    (by decide) 0 (by decide) (by decide)
  exact ⟨h.1, h.2.1⟩

/-- Witness for C6 at the concrete scenario. -/
theorem C6_witness :
    (SunMatrix.execute exCollab exSm exFsEmpty "wd" false).1.head? =
      some (.sigWrite (joinPath "wd" (exSm.name ++ ".hrs"))
        (SunMatrix.renderHours exSm.hoys ++ "\n")) ∧
    SunMatrix.hoursMatch
      (applyEv exFsEmpty (.sigWrite (joinPath "wd" (exSm.name ++ ".hrs"))
        (SunMatrix.renderHours exSm.hoys ++ "\n")))
      exSm (joinPath "wd" (exSm.name ++ ".hrs")) = true := by
  have h := C6_signature_written_first exCollab exSm exFsEmpty "wd" false
    (by decide)
  exact ⟨h.1, h.2.1⟩

/-- Witness for C7 at the concrete scenario: same location, same hours,
entirely different radiation series. -/
theorem C7_witness :
    exSm.cacheHit exFsAll "wd" true = exSm7.cacheHit exFsAll "wd" true ∧
    (exSm.cacheHit exFsAll "wd" true = true →
      SunMatrix.execute exCollab exSm exFsAll "wd" true =
        SunMatrix.execute exCollab exSm7 exFsAll "wd" true) :=
  C7_cache_decision_weather_independent exCollab exCollab exSm exSm7
    exFsAll "wd" true rfl rfl

/-- Witness for the amended C8 at the concrete scenario. -/
theorem C8_witness :
    sunpathCalls (SunMatrix.execute exCollab exSm exFsEmpty "wd" false).1 =
      [(exSm.wea.location, exSm.north)] ∧
    (mtxWrites
        (SunMatrix.execute exCollab exSm exFsEmpty "wd" false).1).map
      (fun p => p.1.latlong) =
      [(exSm.wea.location.latitude, exSm.wea.location.longitude)] :=
  C8_latlong_header exCollab exSm exFsEmpty "wd" false (by decide)

/-- Witness for C9 at concrete values: in-range values are stored
unchanged, out-of-range values are rejected by setters and constructor. -/
theorem C9_witness :
    setRTransmittance exGlass 1 =
      .ok { exGlass with r_transmittance := 1 } ∧
    setRTransmittance exGlass 2 =
      .error "Red transmittance should be between 0 and 1" ∧
    Glass.create "g" 1 0 1 2 "void" =
      .ok ⟨"g", "glass", "void", 1, 0, 1, 2⟩ ∧
    (∃ e, Glass.create "g" 2 0 1 2 "void" = .error e) := by
  have h1 := C9_glass_transmittance_range exGlass 1 "g" "void" 1 0 1 2
  have h2 := C9_glass_transmittance_range exGlass 2 "g" "void" 2 0 1 2
  exact ⟨(h1.1 (by decide)).1, (h2.2.1 (by decide)).1,
    h1.2.2.2.1 (by decide) (by decide) (by decide),
    h2.2.2.2.2 (by decide)⟩
